import Mathlib

/-!
Shallow embedding of the SEM campaign-automation pipeline core
(`src/schemas/state.py`, `src/schemas/campaign.py`,
`src/agents/keyword_processor.py`, `src/agents/clustering.py`,
`src/agents/campaign.py`, `src/workflow.py`).

Python floats are modelled as rationals (ℚ), Python ints as ℤ/ℕ, dicts of
embeddings as association lists, and LangGraph partial state updates as a
record of optional slots applied over the previous `GlobalState`.
External collaborators (HDBSCAN, the OpenAI naming call) are parameters
of the functions that invoke them.
-/

namespace SEM

abbrev Vec := List ℚ

/-- `RawKeyword` from `src/schemas/state.py`. -/
structure RawKeyword where
  keyword : String
  avg_monthly_searches : ℤ
  competition : ℚ
  suggested_bid : ℚ
  search_intent : Option String := none
  opportunity_score : Option ℚ := none
deriving Repr, DecidableEq

/-- `EnrichedKeyword` from `src/schemas/state.py` (fields the core reads). -/
structure EnrichedKeyword where
  keyword_id : String
  expansions : List String := []
  intent : String
  headlines : List String := []
  descriptions : List String := []
  landing_candidate : String := ""
  confidence : ℚ := 0
deriving Repr, DecidableEq

/-- `AdGroup` from `src/schemas/state.py`. -/
structure AdGroup where
  id : String
  name : String
  keywords : List String
  centroid : Vec
  score : ℚ
deriving Repr, DecidableEq

/-- `Bid` from `src/schemas/campaign.py`. -/
structure Bid where
  keyword : String
  match_types : List String
  bid_low : ℚ
  bid_high : ℚ
  target_cpa : Option ℚ := none
deriving Repr, DecidableEq

/-- `AdGroupBids` from `src/schemas/campaign.py`. -/
structure AdGroupBids where
  ad_group_id : String
  ad_group_name : String
  keywords : List Bid
  target_cpa : Option ℚ := none
deriving Repr, DecidableEq

/-- `Campaign` from `src/schemas/campaign.py`; the `smart_bidding` dict is
flattened into its two keys. -/
structure Campaign where
  name : String
  campaign_type : String
  budget : ℚ
  target_roas : ℚ
  ad_groups : List AdGroupBids
  smart_bidding_strategy : String
  smart_bidding_target_roas : ℚ
deriving Repr, DecidableEq

/-- The keys of `initial_request` that the core reads via `.get`. -/
structure InitialRequest where
  monthly_budget : Option ℚ := none
  target_cpa : Option ℚ := none
  target_roas : Option ℚ := none
deriving Repr, DecidableEq

/-- One keyword entry of the search-campaign report
(`CampaignDesignerAgent._format_search_campaign`). -/
structure SearchReportKeyword where
  keyword : String
  intent : String
  search_volume : ℤ
  suggested_bid : ℚ
  match_types : List String
deriving Repr, DecidableEq

/-- One ad-group entry of the search-campaign report. -/
structure SearchReportAdGroup where
  name : String
  keywords : List SearchReportKeyword
deriving Repr, DecidableEq

/-- `_format_search_campaign` result. -/
structure SearchReport where
  budget : ℚ
  target_roas : ℚ
  ad_groups : List SearchReportAdGroup
deriving Repr, DecidableEq

/-- One product-bid entry of the shopping report
(`CampaignDesignerAgent._format_shopping_campaign`). -/
structure ProductBid where
  keyword : String
  search_volume : ℤ
  competition : ℚ
  target_cpa : ℚ
  computed_cpc : ℚ
  expected_roas : ℚ
deriving Repr, DecidableEq

/-- `_format_shopping_campaign` result. -/
structure ShoppingReport where
  budget : ℚ
  target_roas : ℚ
  product_bids : List ProductBid
deriving Repr, DecidableEq

/-- One asset theme of the Performance Max report
(`CampaignDesignerAgent._format_pmax_campaign`). -/
structure PmaxTheme where
  name : String
  description : String
  keywords : List String
deriving Repr, DecidableEq

/-- `_format_pmax_campaign` result. -/
structure PmaxReport where
  budget : ℚ
  target_roas : ℚ
  themes : List PmaxTheme
deriving Repr, DecidableEq

/-- The `budget_allocation` section of the final report. -/
structure BudgetAllocation where
  total_budget : ℚ
  search_budget : ℚ
  shopping_budget : ℚ
  pmax_budget : ℚ
deriving Repr, DecidableEq

/-- The `final_report` dict: either the degraded summary-only report
produced when no ad groups exist, or the full report. -/
inductive FinalReport
  | summaryOnly (summary : String)
  | full (summary : String) (search_campaign : SearchReport)
      (shopping_campaign : ShoppingReport) (pmax_campaign : PmaxReport)
      (budget_allocation : BudgetAllocation)
deriving Repr, DecidableEq

/-- The Performance Max asset themes carried by a final report (none for
the summary-only degraded report). -/
def FinalReport.pmaxThemes : FinalReport → List PmaxTheme
  | .summaryOnly _ => []
  | .full _ _ _ pmax _ => pmax.themes

/-- `GlobalState` from `src/schemas/state.py` (the slots the core
touches; analysis slots not read by the verified stages are omitted). -/
structure GlobalState where
  initial_request : InitialRequest
  job_id : String
  error_log : List String := []
  clustering_attempts : ℕ := 0
  seed_keywords : Option (List String) := none
  raw_keywords : Option (List RawKeyword) := none
  enriched_keywords : Option (List EnrichedKeyword) := none
  embeddings : List (String × Vec) := []
  ad_groups : Option (List AdGroup) := none
  campaigns : Option (List Campaign) := none
  final_report : Option FinalReport := none
deriving Repr, DecidableEq

/-- A LangGraph node's return value: a dict of state updates. A `none`
field means the key is absent from the returned dict and the slot keeps
its previous value. -/
structure StateUpdate where
  error_log : Option (List String) := none
  raw_keywords : Option (List RawKeyword) := none
  ad_groups : Option (List AdGroup) := none
  clustering_attempts : Option ℕ := none
  campaigns : Option (List Campaign) := none
  final_report : Option FinalReport := none
deriving Repr, DecidableEq

/-- LangGraph merge of a node's partial update into the state: every key
present in the returned dict overwrites its slot, every absent key leaves
its slot unchanged (all `GlobalState` fields are plain pydantic fields,
with no additive reducers). -/
def applyUpdate (s : GlobalState) (u : StateUpdate) : GlobalState :=
  { s with
    error_log := u.error_log.getD s.error_log
    raw_keywords := match u.raw_keywords with
      | some v => some v
      | none => s.raw_keywords
    ad_groups := match u.ad_groups with
      | some v => some v
      | none => s.ad_groups
    clustering_attempts := u.clustering_attempts.getD s.clustering_attempts
    campaigns := match u.campaigns with
      | some v => some v
      | none => s.campaigns
    final_report := match u.final_report with
      | some v => some v
      | none => s.final_report }

/-- Python `str.lower()` (ASCII-relevant part). -/
def lowerStr (s : String) : String := String.mk (s.data.map Char.toLower)

/-- Python `tok in s` substring containment. -/
def strContains (s tok : String) : Bool :=
  s.data.tails.any (fun t => tok.data.isPrefixOf t)

/-- Python stable `sorted(l, key=key, reverse=True)`: insert `x` into a
descending-sorted list after all elements with key ≥ its own. -/
def insertDesc {α : Type} (key : α → ℚ) (x : α) : List α → List α
  | [] => [x]
  | y :: ys => if key x ≤ key y then y :: insertDesc key x ys else x :: y :: ys

/-- Stable descending sort by a rational key. -/
def sortDesc {α : Type} (key : α → ℚ) (l : List α) : List α :=
  l.foldl (fun acc x => insertDesc key x acc) []

namespace KeywordProcessor

/-- `KeywordProcessor.handle_error` (`keyword_processor.py:11-15`):
returns an update dict holding only the extended error log. -/
def handle_error (error : String) (s : GlobalState) : StateUpdate :=
  { error_log := some (s.error_log ++ [error]) }

/-- The fixed commercial-intent token set (`keyword_processor.py:41`). -/
def commercial_modifiers : List String :=
  ["buy", "price", "deal", "shop", "purchase", "store", "online"]

/-- `KeywordProcessor._calculate_opportunity_score`
(`keyword_processor.py:17-45`). -/
def calculate_opportunity_score (kw : RawKeyword) : ℚ :=
  let search_volume_norm : ℚ :=
    if kw.avg_monthly_searches ≤ 100 then 0.2
    else if kw.avg_monthly_searches ≤ 1000 then 0.5
    else if kw.avg_monthly_searches ≤ 5000 then 0.8
    else 1.0
  let competition_norm : ℚ := min (kw.competition / 5) 1
  let competition_score : ℚ := 1 - competition_norm
  let bid_norm : ℚ := min (kw.suggested_bid / 100) 1
  let base_score : ℚ :=
    search_volume_norm * 0.4 + competition_score * 0.3 + bid_norm * 0.3
  let boosted : ℚ :=
    if commercial_modifiers.any (fun m => strContains (lowerStr kw.keyword) m)
    then base_score * 1.2 else base_score
  min boosted 1

/-- Python `str.split()` on whitespace, empty chunks removed. -/
def splitWords (s : String) : List String :=
  (s.split (fun c => c.isWhitespace)).filter (fun w => !w.isEmpty)

/-- The filter predicate of `KeywordProcessor._filter_keywords`
(`keyword_processor.py:64-78`): `true` when the keyword is kept. -/
def passes_filter (kw : RawKeyword) : Bool :=
  if kw.avg_monthly_searches < 50 then false
  else if kw.suggested_bid ≤ 0 then false
  else if (splitWords kw.keyword).length > 6 then false
  else if kw.keyword.trim.length ≤ 1 then false
  else true

/-- `KeywordProcessor.__call__` (`keyword_processor.py:89-158`), with the
log printing dropped. The scoring loop keeps a keyword iff its score is
≥ 0.15, setting `opportunity_score` on kept keywords. -/
def call (s : GlobalState) : StateUpdate :=
  let raw_keywords := s.raw_keywords.getD []
  if raw_keywords = [] then handle_error "No keywords to process" s
  else
    let filtered := raw_keywords.filter passes_filter
    if filtered = [] then { raw_keywords := some [] }
    else
      let scored_keywords := filtered.filterMap (fun kw =>
        let sc := calculate_opportunity_score kw
        if sc ≥ 0.15 then some { kw with opportunity_score := some sc }
        else none)
      let sorted_keywords :=
        sortDesc (fun kw => kw.opportunity_score.getD 0) scored_keywords
      { raw_keywords := some (sorted_keywords.take 150) }

end KeywordProcessor

namespace WorkflowBuilder

/-- The poor-cluster filter of `WorkflowBuilder._should_recluster`
(`workflow.py:84-87`). -/
def poor_clusters (ad_groups : List AdGroup) : List AdGroup :=
  ad_groups.filter (fun g => decide (g.keywords.length < 3) || decide (g.score < 0.7))

/-- `WorkflowBuilder._should_recluster` (`workflow.py:66-97`). -/
def should_recluster (s : GlobalState) : String :=
  let ad_groups := s.ad_groups.getD []
  if s.embeddings = [] then "continue_processing"
  else if ad_groups = [] then
    if s.clustering_attempts ≥ 3 then "continue_processing"
    else "recluster"
  else
    if ((poor_clusters ad_groups).length : ℚ) > (ad_groups.length : ℚ) * 0.3 then
      if s.clustering_attempts ≥ 2 then "continue_processing"
      else "recluster"
    else "continue_processing"

end WorkflowBuilder

namespace ClusteringAgent

/-- Outcome of the external HDBSCAN call (`clustering.py:66-75`): either
`fit_predict` raises, or it yields one integer label per sample, the
fitted model carrying per-sample membership probabilities when the
`probabilities_` attribute is available. -/
inductive HdbscanResult
  | fault
  | labels (ls : List ℤ) (probabilities : Option (List ℚ))
deriving Repr, DecidableEq

/-- Whether `np.array` over the embedding vectors yields a 2-d array:
true iff all vectors share one length. -/
def sameLengths : List Vec → Bool
  | [] => true
  | v :: vs => vs.all (fun w => w.length == v.length)

/-- Arithmetic mean (`np.mean`); only applied to nonempty lists. -/
def listMean (l : List ℚ) : ℚ := l.sum / l.length

/-- `embeddings_array[indices].mean(axis=0)`: componentwise mean of the
member vectors. -/
def centroidOf (vs : List Vec) : Vec :=
  match vs with
  | [] => []
  | v :: _ => (List.range v.length).map (fun j => listMean (vs.map (fun w => w.getD j 0)))

/-- One clustered sample: keyword id, vector, HDBSCAN label and
membership probability (0.8 when `probabilities_` is unavailable,
matching the `hasattr` fallback at `clustering.py:118`). -/
structure Pt where
  kw : String
  vec : Vec
  label : ℤ
  prob : ℚ
deriving Repr, DecidableEq

/-- Pair every sample with its label and probability. -/
def mkPts (emb : List (String × Vec)) (ls : List ℤ) : Option (List ℚ) → List Pt
  | some pr => (emb.zip (ls.zip pr)).map (fun q => ⟨q.1.1, q.1.2, q.2.1, q.2.2⟩)
  | none => (emb.zip ls).map (fun q => ⟨q.1.1, q.1.2, q.2, 0.8⟩)

/-- The noise-point singleton groups (`clustering.py:92-102`). -/
def noiseGroups (pts : List Pt) : List AdGroup :=
  ((pts.filter (fun p => p.label == -1)).enum).map (fun q =>
    { id := "noise_group_" ++ toString q.1
      name := "Individual Keywords " ++ toString (q.1 + 1)
      keywords := [q.2.kw]
      centroid := q.2.vec
      score := 0.6 })

/-- The per-cluster groups (`clustering.py:104-131`); iteration over
`set(cluster_labels)` minus the noise label, group name produced by the
external naming collaborator. -/
def clusterGroups (pts : List Pt) (ls : List ℤ)
    (generate_name : List String → String) : List AdGroup :=
  ((ls.dedup).filter (fun c => c != -1)).filterMap (fun c =>
    let members := pts.filter (fun p => p.label == c)
    if members = [] then none
    else some
      { id := "group_" ++ toString c
        name := generate_name (members.map (fun p => p.kw))
        keywords := members.map (fun p => p.kw)
        centroid := centroidOf (members.map (fun p => p.vec))
        score := listMean (members.map (fun p => p.prob)) })

/-- `ClusteringAgent.__call__` (`clustering.py:23-151`), parameterised
over the HDBSCAN outcome and the naming collaborator. Branches, in
source order: empty embeddings; fewer than 3 embeddings; non-2d
embeddings array; HDBSCAN fault fallback (which returns WITHOUT a
`clustering_attempts` key, `clustering.py:86`); noise/cluster group
construction plus the zero-groups catch-all. -/
def call (s : GlobalState) (hdbscan : HdbscanResult)
    (generate_name : List String → String) : StateUpdate :=
  if s.embeddings = [] then
    { ad_groups := some []
      clustering_attempts := some (s.clustering_attempts + 1) }
  else if s.embeddings.length < 3 then
    { ad_groups := some (s.embeddings.enum.map (fun q =>
        { id := "group_" ++ toString q.1
          name := "Keywords Group " ++ toString (q.1 + 1)
          keywords := [q.2.1]
          centroid := q.2.2
          score := 0.8 }))
      clustering_attempts := some (s.clustering_attempts + 1) }
  else
    let keyword_ids := s.embeddings.map Prod.fst
    if ¬ sameLengths (s.embeddings.map Prod.snd) then
      { ad_groups := some []
        clustering_attempts := some (s.clustering_attempts + 1) }
    else
      match hdbscan with
      | .fault =>
        { ad_groups := some (s.embeddings.enum.map (fun q =>
            { id := "fallback_group_" ++ toString q.1
              name := "Keyword Group " ++ toString (q.1 + 1)
              keywords := [q.2.1]
              centroid := q.2.2
              score := 0.7 })) }
      | .labels ls probs =>
        let pts := mkPts s.embeddings ls probs
        let ad_groups := noiseGroups pts ++ clusterGroups pts ls generate_name
        let final_groups :=
          if ad_groups = [] ∧ keyword_ids ≠ [] then
            [{ id := "default_group"
               name := "All Keywords"
               keywords := keyword_ids
               centroid := centroidOf (s.embeddings.map Prod.snd)
               score := 0.7 }]
          else ad_groups
        { ad_groups := some final_groups
          clustering_attempts := some (s.clustering_attempts + 1) }

end ClusteringAgent

/-- Python 3 `round(q)` — round-half-to-even (banker's rounding) — as an
integer result on exact rationals. -/
def roundHalfEvenInt (q : ℚ) : ℤ :=
  if q - ⌊q⌋ < 1/2 then ⌊q⌋
  else if 1/2 < q - ⌊q⌋ then ⌊q⌋ + 1
  else if ⌊q⌋ % 2 = 0 then ⌊q⌋ else ⌊q⌋ + 1

/-- Python `round(q, 2)`. -/
def round2 (q : ℚ) : ℚ := (roundHalfEvenInt (q * 100) : ℚ) / 100

namespace CampaignDesignerAgent

/-- `CampaignDesignerAgent._get_match_types` (`campaign.py:272-282`). -/
def get_match_types (intent : String) : List String :=
  let intent := lowerStr intent
  if intent = "brand" then ["EXACT", "PHRASE"]
  else if intent = "competitor" then ["PHRASE", "EXACT"]
  else if intent = "transactional" ∨ intent = "commercial" ∨ intent = "high_intent"
    then ["BROAD", "PHRASE"]
  else ["PHRASE"]

/-- `{k.keyword_id: k for k in ...}.get(id)`: a Python dict built by
comprehension keeps the last entry per key. -/
def dictGet {α : Type} (key : α → String) (l : List α) (k : String) : Option α :=
  l.reverse.find? (fun x => key x == k)

/-- The budget split of `CampaignDesignerAgent.__call__`
(`campaign.py:33-36`): (search, shopping, pmax). -/
def allocate_budget (total_budget : ℚ) : ℚ × ℚ × ℚ :=
  (total_budget * 0.5, total_budget * 0.3, total_budget * 0.2)

/-- The per-keyword bid of `_create_search_campaign`
(`campaign.py:96-111`). -/
def mkBid (keyword_id : String) (intent : String) (target_cpa competition : ℚ) : Bid :=
  let conversion_rate : ℚ := 0.02
  let bid_multiplier : ℚ := 1 + competition * 0.2
  let base_bid := target_cpa * conversion_rate
  { keyword := keyword_id
    match_types := get_match_types intent
    bid_low := round2 (base_bid * bid_multiplier * 0.8)
    bid_high := round2 (base_bid * bid_multiplier * 1.2)
    target_cpa := some target_cpa }

/-- `CampaignDesignerAgent._create_search_campaign`
(`campaign.py:73-131`). -/
def create_search_campaign (s : GlobalState) (budget : ℚ) : Campaign :=
  let target_cpa := s.initial_request.target_cpa.getD 50
  let target_roas := s.initial_request.target_roas.getD 3
  let ad_groups_with_bids := (s.ad_groups.getD []).map (fun group =>
    let keywords := group.keywords.filterMap (fun keyword_id =>
      match dictGet EnrichedKeyword.keyword_id (s.enriched_keywords.getD []) keyword_id,
            dictGet RawKeyword.keyword (s.raw_keywords.getD []) keyword_id with
      | some enriched, some raw =>
        some (mkBid keyword_id enriched.intent target_cpa raw.competition)
      | _, _ => none)
    { ad_group_id := group.id
      ad_group_name := group.name
      keywords := keywords
      target_cpa := some target_cpa })
  { name := "Search Campaign"
    campaign_type := "search"
    budget := budget
    target_roas := target_roas
    ad_groups := ad_groups_with_bids
    smart_bidding_strategy := "TARGET_ROAS"
    smart_bidding_target_roas := target_roas }

/-- `CampaignDesignerAgent._create_shopping_campaign`
(`campaign.py:134-147`). -/
def create_shopping_campaign (s : GlobalState) (budget : ℚ) : Campaign :=
  { name := "Shopping Campaign"
    campaign_type := "shopping"
    ad_groups := []
    budget := budget
    target_roas := s.initial_request.target_roas.getD 3
    smart_bidding_strategy := "TARGET_ROAS"
    smart_bidding_target_roas := s.initial_request.target_roas.getD 3 }

/-- `CampaignDesignerAgent._create_pmax_campaign`
(`campaign.py:149-161`). -/
def create_pmax_campaign (s : GlobalState) (budget : ℚ) : Campaign :=
  { name := "Performance Max Campaign"
    campaign_type := "pmax"
    budget := budget
    target_roas := s.initial_request.target_roas.getD 3
    ad_groups := []
    smart_bidding_strategy := "MAXIMIZE_CONVERSION_VALUE"
    smart_bidding_target_roas := s.initial_request.target_roas.getD 3 }

/-- `CampaignDesignerAgent._format_search_campaign`
(`campaign.py:163-194`). -/
def format_search_campaign (campaign : Campaign) (s : GlobalState) : SearchReport :=
  let ad_groups := (s.ad_groups.getD []).filterMap (fun group =>
    let keywords := group.keywords.filterMap (fun keyword_id =>
      match dictGet EnrichedKeyword.keyword_id (s.enriched_keywords.getD []) keyword_id,
            dictGet RawKeyword.keyword (s.raw_keywords.getD []) keyword_id with
      | some enriched, some raw =>
        some { keyword := keyword_id
               intent := enriched.intent
               search_volume := raw.avg_monthly_searches
               suggested_bid := raw.suggested_bid
               match_types := get_match_types enriched.intent }
      | _, _ => none)
    if keywords = [] then none
    else some { name := group.name, keywords := keywords })
  { budget := campaign.budget
    target_roas := campaign.target_roas
    ad_groups := ad_groups }

/-- `CampaignDesignerAgent._format_shopping_campaign`
(`campaign.py:196-228`). -/
def format_shopping_campaign (campaign : Campaign) (s : GlobalState) : ShoppingReport :=
  let top_keywords :=
    (sortDesc (fun kw => (kw.avg_monthly_searches : ℚ)) (s.raw_keywords.getD [])).take 20
  let product_bids := top_keywords.map (fun keyword =>
    let target_cpa : ℚ := 50
    let conversion_rate : ℚ := 0.02
    let computed_cpc := target_cpa * conversion_rate * (1 + keyword.competition * 0.3)
    { keyword := keyword.keyword
      search_volume := keyword.avg_monthly_searches
      competition := keyword.competition
      target_cpa := target_cpa
      computed_cpc := round2 computed_cpc
      expected_roas := s.initial_request.target_roas.getD 3 })
  { budget := campaign.budget
    target_roas := campaign.target_roas
    product_bids := product_bids }

/-- The two generic default asset themes of `_format_pmax_campaign`
(`campaign.py:246-258`). -/
def default_pmax_themes : List PmaxTheme :=
  [{ name := "Brand Awareness Theme"
     description := "Broad reach campaign targeting brand awareness and consideration."
     keywords := [] },
   { name := "Product Category Theme"
     description := "Product-focused campaign targeting high-intent shoppers."
     keywords := [] }]

/-- `CampaignDesignerAgent._format_pmax_campaign`
(`campaign.py:230-264`). -/
def format_pmax_campaign (campaign : Campaign) (s : GlobalState) : PmaxReport :=
  let themes := (s.ad_groups.getD []).map (fun group =>
    { name := group.name ++ " Theme"
      description := "Performance Max asset group targeting " ++ lowerStr group.name
        ++ " related searches and audiences."
      keywords := group.keywords.take 10 })
  let themes := if themes = [] then default_pmax_themes else themes
  { budget := campaign.budget
    target_roas := campaign.target_roas
    themes := themes }

/-- `CampaignDesignerAgent._count_total_keywords` (`campaign.py:266-270`). -/
def count_total_keywords (s : GlobalState) : ℕ :=
  ((s.ad_groups.getD []).map (fun group => group.keywords.length)).sum

/-- `CampaignDesignerAgent.__call__` (`campaign.py:16-71`). -/
def call (s : GlobalState) : StateUpdate :=
  if s.ad_groups.getD [] = [] then
    { campaigns := some []
      final_report := some (.summaryOnly "No ad groups to process.") }
  else
    let total_budget := s.initial_request.monthly_budget.getD 0
    let alloc := allocate_budget total_budget
    let search_campaign := create_search_campaign s alloc.1
    let shopping_campaign := create_shopping_campaign s alloc.2.1
    let pmax_campaign := create_pmax_campaign s alloc.2.2
    let campaigns := [search_campaign, shopping_campaign, pmax_campaign]
    let final_report : FinalReport := .full
      ("Generated " ++ toString campaigns.length ++ " campaigns with "
        ++ toString (count_total_keywords s) ++ " keywords.")
      (format_search_campaign search_campaign s)
      (format_shopping_campaign shopping_campaign s)
      (format_pmax_campaign pmax_campaign s)
      { total_budget := total_budget
        search_budget := alloc.1
        shopping_budget := alloc.2.1
        pmax_budget := alloc.2.2 }
    { campaigns := some campaigns
      final_report := some final_report }

end CampaignDesignerAgent

/-! Concrete test fixtures used by scenario claims, counterexamples and
witnesses. -/

/-- The scenario keyword of §8: searches 80, bid 1.0, competition 2. -/
def cheapShoes : RawKeyword :=
  { keyword := "cheap shoes", avg_monthly_searches := 80, competition := 2, suggested_bid := 1 }

/-- A three-member ad group with the given id and score. -/
def mkTestGroup (id : String) (sc : ℚ) : AdGroup :=
  { id := id, name := "Group " ++ id, keywords := ["kw a", "kw b", "kw c"],
    centroid := [], score := sc }

/-- The §8 quality-gate scenario state: 5 ad groups, 3 healthy
(3 members, score 0.8) and 2 poor (score 0.5), embeddings present. -/
def gateScenarioState (att : ℕ) : GlobalState :=
  { initial_request := {}, job_id := "job", clustering_attempts := att,
    embeddings := [("kw a", [0])],
    ad_groups := some [mkTestGroup "g1" 0.8, mkTestGroup "g2" 0.8, mkTestGroup "g3" 0.8,
                       mkTestGroup "g4" 0.5, mkTestGroup "g5" 0.5] }

/-- Embeddings present, no ad groups yet, no attempts. -/
def wGateZeroState : GlobalState :=
  { initial_request := {}, job_id := "job", embeddings := [("kw a", [0])] }

/-- A deterministic stand-in for the external naming collaborator. -/
def wNameFn : List String → String := fun _ => "Generated Group"

/-- Three one-dimensional embeddings, zero clustering attempts. -/
def wClusterState : GlobalState :=
  { initial_request := {}, job_id := "job",
    embeddings := [("alpha", [1]), ("beta", [2]), ("gamma", [3])] }

/-- Raw-keywords slot set to the empty list. -/
def wEmptyKwState : GlobalState :=
  { initial_request := {}, job_id := "job", raw_keywords := some [] }

/-- Raw-keywords slot never populated. -/
def wMissingKwState : GlobalState :=
  { initial_request := {}, job_id := "job", raw_keywords := none }

/-- Ad-groups slot set to the empty list. -/
def wNoGroupsState : GlobalState :=
  { initial_request := {}, job_id := "job", ad_groups := some [] }

/-- A throwaway campaign value for exercising the report formatters. -/
def wDummyCampaign : Campaign :=
  { name := "c", campaign_type := "search", budget := 0, target_roas := 0,
    ad_groups := [], smart_bidding_strategy := "", smart_bidding_target_roas := 0 }

/-- A keyword whose term contains the commercial token "buy". -/
def wBuyKeyword : RawKeyword :=
  { keyword := "buy shoes", avg_monthly_searches := 80, competition := 2, suggested_bid := 1 }

/-- The same numeric fields with a term free of commercial tokens. -/
def wPlainKeyword : RawKeyword :=
  { keyword := "running shoes", avg_monthly_searches := 80, competition := 2, suggested_bid := 1 }

/-- One ad group whose single member has both raw and enriched data. -/
def wBidState : GlobalState :=
  { initial_request := { target_cpa := some 40 }, job_id := "job",
    raw_keywords := some
      [{ keyword := "kw1", avg_monthly_searches := 100, competition := 2, suggested_bid := 1 }],
    enriched_keywords := some [{ keyword_id := "kw1", intent := "brand", confidence := 1 }],
    ad_groups := some [{ id := "g1", name := "G", keywords := ["kw1"], centroid := [], score := 1 }] }

/-- A 1000-unit monthly budget with one ad group present. -/
def wBudgetState : GlobalState :=
  { initial_request := { monthly_budget := some 1000 }, job_id := "job",
    ad_groups := some [{ id := "g1", name := "G", keywords := [], centroid := [], score := 1 }] }

/-! Helper lemmas. -/

lemma roundHalfEvenInt_le (q : ℚ) : roundHalfEvenInt q ≤ ⌊q⌋ + 1 := by
  unfold roundHalfEvenInt
  split_ifs <;> omega

lemma le_roundHalfEvenInt (q : ℚ) : ⌊q⌋ ≤ roundHalfEvenInt q := by
  unfold roundHalfEvenInt
  split_ifs <;> omega

lemma roundHalfEvenInt_mono {a b : ℚ} (h : a ≤ b) :
    roundHalfEvenInt a ≤ roundHalfEvenInt b := by
  have hf : ⌊a⌋ ≤ ⌊b⌋ := Int.floor_le_floor h
  rcases eq_or_lt_of_le hf with heq | hlt
  · have hr : a - (⌊a⌋ : ℚ) ≤ b - (⌊b⌋ : ℚ) := by
      rw [← heq]
      linarith
    unfold roundHalfEvenInt
    rw [← heq]
    rw [← heq] at hr
    split_ifs <;> first | omega | linarith
  · have h1 := roundHalfEvenInt_le a
    have h2 := le_roundHalfEvenInt b
    omega

lemma round2_mono {a b : ℚ} (h : a ≤ b) : round2 a ≤ round2 b := by
  have h100 : a * 100 ≤ b * 100 :=
    mul_le_mul_of_nonneg_right h (by norm_num : (0:ℚ) ≤ 100)
  have hcast : ((roundHalfEvenInt (a * 100) : ℚ)) ≤ (roundHalfEvenInt (b * 100) : ℚ) := by
    exact_mod_cast roundHalfEvenInt_mono h100
  unfold round2
  linarith

lemma flatMap_singleton_eq_map {α β : Type} (g : α → β) (l : List α) :
    (l.flatMap fun a => [g a]) = l.map g := by
  induction l with
  | nil => rfl
  | cons x xs ih => simp [List.flatMap_cons, ih]

lemma flatMap_congr_of_mem {α β : Type} {l : List α} {f g : α → List β}
    (h : ∀ a ∈ l, f a = g a) : l.flatMap f = l.flatMap g := by
  induction l with
  | nil => rfl
  | cons x xs ih =>
    simp only [List.flatMap_cons]
    rw [h x (List.mem_cons_self x xs), ih fun a ha => h a (List.mem_cons_of_mem _ ha)]

/-- Splitting a list by the distinct values of a key is a permutation:
concatenating, over a duplicate-free list of values covering every
element's key, the sublists of elements with that key reassembles the
original list up to order. -/
lemma perm_flatMap_filter_eq {α : Type} (key : α → ℤ) (vs : List ℤ) :
    ∀ pts : List α, vs.Nodup → (∀ p ∈ pts, key p ∈ vs) →
      List.Perm (vs.flatMap fun c => pts.filter fun p => key p == c) pts := by
  induction vs with
  | nil =>
    intro pts _ hcov
    have hnil : pts = [] :=
      List.eq_nil_iff_forall_not_mem.mpr fun p hp => by simpa using hcov p hp
    simp [hnil]
  | cons c vs ih =>
    intro pts hnd hcov
    have hnd' := List.nodup_cons.mp hnd
    have hstep : ∀ c' ∈ vs,
        (pts.filter fun p => key p == c')
          = (pts.filter fun p => !(key p == c)).filter fun p => key p == c' := by
      intro c' hc'
      rw [List.filter_filter]
      apply List.filter_congr
      intro p _
      cases hkey : (key p == c') with
      | false => simp [hkey]
      | true =>
        have hpc' : key p = c' := by simpa using hkey
        have hne : c' ≠ c := fun hcc => hnd'.1 (hcc ▸ hc')
        simp [hkey, hpc', hne]
    have hcov' : ∀ p ∈ (pts.filter fun p => !(key p == c)), key p ∈ vs := by
      intro p hp
      obtain ⟨hpp, hlab⟩ := List.mem_filter.mp hp
      have hne : key p ≠ c := by simpa using hlab
      exact (List.mem_cons.mp (hcov p hpp)).resolve_left hne
    have heq1 : ((c :: vs).flatMap fun c' => pts.filter fun p => key p == c')
        = (pts.filter fun p => key p == c)
            ++ vs.flatMap fun c' => (pts.filter fun p => !(key p == c)).filter
                fun p => key p == c' := by
      rw [List.flatMap_cons, flatMap_congr_of_mem hstep]
    rw [heq1]
    exact (List.Perm.append_left _ (ih _ hnd'.2 hcov')).trans
      (List.filter_append_perm _ pts)

lemma mkPts_map_kw (emb : List (String × Vec)) (ls : List ℤ) (probs : Option (List ℚ))
    (hls : ls.length = emb.length)
    (hpr : ∀ p, probs = some p → p.length = ls.length) :
    (ClusteringAgent.mkPts emb ls probs).map ClusteringAgent.Pt.kw = emb.map Prod.fst := by
  cases probs with
  | none =>
    show ((emb.zip ls).map _).map _ = _
    rw [List.map_map]
    have : (emb.zip ls).map (fun q => q.1.1)
        = ((emb.zip ls).map Prod.fst).map Prod.fst := by
      rw [List.map_map]; rfl
    rw [show (ClusteringAgent.Pt.kw ∘ fun q : (String × Vec) × ℤ =>
          (⟨q.1.1, q.1.2, q.2, 0.8⟩ : ClusteringAgent.Pt)) = fun q => q.1.1 from rfl,
        this, List.map_fst_zip emb ls (le_of_eq hls.symm)]
  | some pr =>
    have hprl : pr.length = ls.length := hpr pr rfl
    show ((emb.zip (ls.zip pr)).map _).map _ = _
    rw [List.map_map]
    have : (emb.zip (ls.zip pr)).map (fun q => q.1.1)
        = ((emb.zip (ls.zip pr)).map Prod.fst).map Prod.fst := by
      rw [List.map_map]; rfl
    rw [show (ClusteringAgent.Pt.kw ∘ fun q : (String × Vec) × ℤ × ℚ =>
          (⟨q.1.1, q.1.2, q.2.1, q.2.2⟩ : ClusteringAgent.Pt)) = fun q => q.1.1 from rfl,
        this, List.map_fst_zip emb (ls.zip pr)]
    rw [List.length_zip, hprl, hls]
    simp

lemma mkPts_map_label (emb : List (String × Vec)) (ls : List ℤ) (probs : Option (List ℚ))
    (hls : ls.length = emb.length)
    (hpr : ∀ p, probs = some p → p.length = ls.length) :
    (ClusteringAgent.mkPts emb ls probs).map ClusteringAgent.Pt.label = ls := by
  cases probs with
  | none =>
    show ((emb.zip ls).map _).map _ = _
    rw [List.map_map]
    have : (emb.zip ls).map (fun q => q.2)
        = (emb.zip ls).map Prod.snd := rfl
    rw [show (ClusteringAgent.Pt.label ∘ fun q : (String × Vec) × ℤ =>
          (⟨q.1.1, q.1.2, q.2, 0.8⟩ : ClusteringAgent.Pt)) = fun q => q.2 from rfl,
        this, List.map_snd_zip emb ls (le_of_eq hls)]
  | some pr =>
    have hprl : pr.length = ls.length := hpr pr rfl
    show ((emb.zip (ls.zip pr)).map _).map _ = _
    rw [List.map_map]
    have h1 : (emb.zip (ls.zip pr)).map (fun q => q.2.1)
        = ((emb.zip (ls.zip pr)).map Prod.snd).map Prod.fst := by
      rw [List.map_map]; rfl
    rw [show (ClusteringAgent.Pt.label ∘ fun q : (String × Vec) × ℤ × ℚ =>
          (⟨q.1.1, q.1.2, q.2.1, q.2.2⟩ : ClusteringAgent.Pt)) = fun q => q.2.1 from rfl,
        h1, List.map_snd_zip emb (ls.zip pr) (by rw [List.length_zip, hprl, hls]; simp),
        List.map_fst_zip ls pr (le_of_eq hprl.symm)]

lemma noiseGroups_flatMap (pts : List ClusteringAgent.Pt) :
    (ClusteringAgent.noiseGroups pts).flatMap AdGroup.keywords
      = (pts.filter fun p => p.label == -1).map ClusteringAgent.Pt.kw := by
  unfold ClusteringAgent.noiseGroups
  rw [List.flatMap_map]
  show ((pts.filter fun p => p.label == -1).enum.flatMap
      fun q : ℕ × ClusteringAgent.Pt => [q.2.kw]) = _
  rw [flatMap_singleton_eq_map (fun q : ℕ × ClusteringAgent.Pt => q.2.kw)]
  show ((pts.filter fun p => p.label == -1).enum.map
      (ClusteringAgent.Pt.kw ∘ Prod.snd)) = _
  rw [← List.map_map, List.enum_map_snd]

lemma clusterGroups_flatMap (pts : List ClusteringAgent.Pt) (ls : List ℤ)
    (nameFn : List String → String) :
    (ClusteringAgent.clusterGroups pts ls nameFn).flatMap AdGroup.keywords
      = ((ls.dedup.filter fun c => c != -1).flatMap
          fun c => (pts.filter fun p => p.label == c).map ClusteringAgent.Pt.kw) := by
  unfold ClusteringAgent.clusterGroups
  induction (ls.dedup.filter fun c => c != -1) with
  | nil => rfl
  | cons c cs ih =>
    by_cases hm : (pts.filter fun p => p.label == c) = []
    · rw [List.filterMap_cons_none (by simp only [hm, if_pos]), ih,
        List.flatMap_cons, hm]
      simp
    · simp only [List.filterMap_cons, hm, if_false, List.flatMap_cons]
      rw [ih]

lemma cheapShoes_score :
    KeywordProcessor.calculate_opportunity_score cheapShoes = 263/1000 := by
  have hmod : ¬ ∃ x ∈ KeywordProcessor.commercial_modifiers,
      strContains (lowerStr "cheap shoes") x = true := by decide
  simp only [KeywordProcessor.calculate_opportunity_score, cheapShoes]
  norm_num [hmod, min_def]

/-! Claim theorems. -/

/-- C6 counterexample: for the keyword "cheap shoes" (searches 80, bid
1.0, competition 2) the scoring formula yields exactly 0.263, which is
not approximately 0.203 — it misses by 0.06 > 1/20. The claim's final
number is wrong: 0.4·0.2 + 0.3·0.6 + 0.3·0.01 = 0.263, not 0.203. -/
theorem keyword_score_scenario_counterexample :
    KeywordProcessor.calculate_opportunity_score cheapShoes ≠ 203/1000
      ∧ 1/20 < |KeywordProcessor.calculate_opportunity_score cheapShoes - 203/1000| := by
  rw [cheapShoes_score]
  constructor
  · norm_num
  · rw [show (263:ℚ)/1000 - 203/1000 = 3/50 by norm_num,
      abs_of_nonneg (by norm_num : (0:ℚ) ≤ 3/50)]
    norm_num

/-- C6 (amended): for the keyword "cheap shoes" with searches 80,
suggested bid 1.0, competition 2, no commercial-intent token matches,
and the score is the weighted sum 0.4·0.2 + 0.3·0.6 + 0.3·0.01 = 0.263
exactly (not 0.203). -/
theorem keyword_score_scenario :
    (KeywordProcessor.commercial_modifiers.any
        fun m => strContains (lowerStr cheapShoes.keyword) m) = false
      ∧ KeywordProcessor.calculate_opportunity_score cheapShoes
          = 0.4 * 0.2 + 0.3 * 0.6 + 0.3 * 0.01
      ∧ KeywordProcessor.calculate_opportunity_score cheapShoes = 263/1000 := by
  refine ⟨by decide, ?_, cheapShoes_score⟩
  rw [cheapShoes_score]
  norm_num

/-- C9: whenever campaign generation runs (some ad group exists), the
monthly budget is split exactly 50% / 30% / 20% over the three emitted
campaigns, the three parts sum to the full budget, and a budget of 1000
yields 500 / 300 / 200. -/
theorem budget_split (s : GlobalState) (h : s.ad_groups.getD [] ≠ []) :
    ((CampaignDesignerAgent.call s).campaigns.getD []).map Campaign.budget
        = [(s.initial_request.monthly_budget.getD 0) * (5/10),
           (s.initial_request.monthly_budget.getD 0) * (3/10),
           (s.initial_request.monthly_budget.getD 0) * (2/10)]
      ∧ (s.initial_request.monthly_budget.getD 0) * (5/10)
          + (s.initial_request.monthly_budget.getD 0) * (3/10)
          + (s.initial_request.monthly_budget.getD 0) * (2/10)
          = s.initial_request.monthly_budget.getD 0
      ∧ CampaignDesignerAgent.allocate_budget 1000 = (500, 300, 200) := by
  refine ⟨?_, by ring, ?_⟩
  · simp only [CampaignDesignerAgent.call, if_neg h, Option.getD_some,
      CampaignDesignerAgent.allocate_budget, CampaignDesignerAgent.create_search_campaign,
      CampaignDesignerAgent.create_shopping_campaign, CampaignDesignerAgent.create_pmax_campaign,
      List.map_cons, List.map_nil]
    norm_num
  · simp only [CampaignDesignerAgent.allocate_budget, Prod.mk.injEq]
    norm_num

/-- Witness for C9 at a concrete state with monthly budget 1000 and one
ad group. -/
theorem budget_split_witness :
    ((CampaignDesignerAgent.call wBudgetState).campaigns.getD []).map Campaign.budget
        = [(wBudgetState.initial_request.monthly_budget.getD 0) * (5/10),
           (wBudgetState.initial_request.monthly_budget.getD 0) * (3/10),
           (wBudgetState.initial_request.monthly_budget.getD 0) * (2/10)]
      ∧ (wBudgetState.initial_request.monthly_budget.getD 0) * (5/10)
          + (wBudgetState.initial_request.monthly_budget.getD 0) * (3/10)
          + (wBudgetState.initial_request.monthly_budget.getD 0) * (2/10)
          = wBudgetState.initial_request.monthly_budget.getD 0
      ∧ CampaignDesignerAgent.allocate_budget 1000 = (500, 300, 200) :=
  budget_split wBudgetState (by decide)

/-- C4 counterexample: on the empty raw-keyword list the Keyword Filter
and Scorer does record an error — the run's error log changes from `[]`
to `["No keywords to process"]` — contradicting "output is empty, not an
error". -/
theorem empty_keywords_counterexample :
    (applyUpdate wEmptyKwState (KeywordProcessor.call wEmptyKwState)).error_log
        ≠ wEmptyKwState.error_log
      ∧ (applyUpdate wEmptyKwState (KeywordProcessor.call wEmptyKwState)).error_log
        = ["No keywords to process"] := by
  decide

/-- C4 (amended): when the Keyword Filter and Scorer is applied to an
empty (or missing) sequence of RawKeyword, it takes the missing-input
error path: the returned update is exactly `handle_error`, which appends
one entry to the error log and leaves every other slot, including
raw-keywords, unchanged. -/
theorem empty_keywords_records_error (s : GlobalState)
    (h : s.raw_keywords.getD [] = []) :
    KeywordProcessor.call s = KeywordProcessor.handle_error "No keywords to process" s
      ∧ applyUpdate s (KeywordProcessor.call s)
        = { s with error_log := s.error_log ++ ["No keywords to process"] } := by
  have h1 : KeywordProcessor.call s
      = KeywordProcessor.handle_error "No keywords to process" s := by
    simp [KeywordProcessor.call, h]
  exact ⟨h1, by rw [h1]; rfl⟩

/-- Witness for C4 at the concrete state whose raw-keywords slot holds
the empty list. -/
theorem empty_keywords_records_error_witness :
    KeywordProcessor.call wEmptyKwState
        = KeywordProcessor.handle_error "No keywords to process" wEmptyKwState
      ∧ applyUpdate wEmptyKwState (KeywordProcessor.call wEmptyKwState)
        = { wEmptyKwState with
            error_log := wEmptyKwState.error_log ++ ["No keywords to process"] } :=
  empty_keywords_records_error wEmptyKwState (by decide)

/-- C10: when the Keyword Filter and Scorer fails, its returned update
modifies only the error log, appending exactly one entry, and leaves
every other pipeline-context slot (raw keywords included) unchanged:
applying `handle_error` only extends the error log, and the
missing-input failure path returns exactly `handle_error`. -/
theorem keyword_error_frame :
    (∀ (s : GlobalState) (msg : String),
        applyUpdate s (KeywordProcessor.handle_error msg s)
          = { s with error_log := s.error_log ++ [msg] })
      ∧ (∀ s : GlobalState, s.raw_keywords.getD [] = [] →
          KeywordProcessor.call s
            = KeywordProcessor.handle_error "No keywords to process" s) := by
  constructor
  · intro s msg
    rfl
  · intro s h
    simp [KeywordProcessor.call, h]

/-- Witness for C10 at the concrete state whose raw-keywords slot was
never populated. -/
theorem keyword_error_frame_witness :
    KeywordProcessor.call wMissingKwState
      = KeywordProcessor.handle_error "No keywords to process" wMissingKwState :=
  keyword_error_frame.2 wMissingKwState (by decide)

/-- C5 counterexample: with the ad-groups slot empty, campaign
generation returns the degraded summary-only report, which carries no
Performance Max section at all — not a report with two default asset
themes. -/
theorem pmax_missing_counterexample :
    (CampaignDesignerAgent.call wNoGroupsState).final_report
        = some (FinalReport.summaryOnly "No ad groups to process.")
      ∧ (((CampaignDesignerAgent.call wNoGroupsState).final_report.getD
            (FinalReport.summaryOnly "")).pmaxThemes).length ≠ 2 := by
  decide

/-- C5 (amended): if no ad groups exist when campaign generation runs,
the agent skips generation entirely, returning empty campaigns and a
summary-only report; the two generic default asset themes are produced
only by the Performance Max formatter itself when invoked on a state
without ad groups — a path the agent's call never takes. -/
theorem pmax_generation_skipped (s : GlobalState) (c : Campaign)
    (h : s.ad_groups.getD [] = []) :
    CampaignDesignerAgent.call s
        = { campaigns := some [],
            final_report := some (FinalReport.summaryOnly "No ad groups to process.") }
      ∧ (CampaignDesignerAgent.format_pmax_campaign c s).themes
          = CampaignDesignerAgent.default_pmax_themes
      ∧ CampaignDesignerAgent.default_pmax_themes.length = 2 := by
  refine ⟨by simp [CampaignDesignerAgent.call, h], ?_, rfl⟩
  simp [CampaignDesignerAgent.format_pmax_campaign, h]

/-- Witness for C5 at the concrete state whose ad-groups slot holds the
empty list, with a throwaway campaign for the formatter. -/
theorem pmax_generation_skipped_witness :
    CampaignDesignerAgent.call wNoGroupsState
        = { campaigns := some [],
            final_report := some (FinalReport.summaryOnly "No ad groups to process.") }
      ∧ (CampaignDesignerAgent.format_pmax_campaign wDummyCampaign wNoGroupsState).themes
          = CampaignDesignerAgent.default_pmax_themes
      ∧ CampaignDesignerAgent.default_pmax_themes.length = 2 :=
  pmax_generation_skipped wNoGroupsState wDummyCampaign (by decide)

/-- C2: the Quality Gate returns `continue_processing` when no
embeddings exist; with embeddings and zero ad groups it returns
`recluster` iff attempts < 3; with embeddings and ad groups it returns
`recluster` iff the poor groups (fewer than 3 members or score < 0.7)
exceed 30% of all groups and attempts < 2; it emits no other signal; and
on the §8 scenario (5 groups, 2 with score 0.5) it returns `recluster`
at attempts 0 and `continue_processing` at attempts 2. -/
theorem quality_gate_decision :
    (∀ s : GlobalState, s.embeddings = [] →
        WorkflowBuilder.should_recluster s = "continue_processing")
      ∧ (∀ s : GlobalState, s.embeddings ≠ [] → s.ad_groups.getD [] = [] →
          (WorkflowBuilder.should_recluster s = "recluster"
            ↔ s.clustering_attempts < 3))
      ∧ (∀ s : GlobalState, s.embeddings ≠ [] → s.ad_groups.getD [] ≠ [] →
          (WorkflowBuilder.should_recluster s = "recluster"
            ↔ (((WorkflowBuilder.poor_clusters (s.ad_groups.getD [])).length : ℚ)
                  > ((s.ad_groups.getD []).length : ℚ) * 0.3
                ∧ s.clustering_attempts < 2)))
      ∧ (∀ s : GlobalState, WorkflowBuilder.should_recluster s = "recluster"
          ∨ WorkflowBuilder.should_recluster s = "continue_processing")
      ∧ WorkflowBuilder.should_recluster (gateScenarioState 0) = "recluster"
      ∧ WorkflowBuilder.should_recluster (gateScenarioState 2) = "continue_processing" := by
  refine ⟨?_, ?_, ?_, ?_, ?_, ?_⟩
  · intro s h
    simp only [WorkflowBuilder.should_recluster]
    rw [if_pos h]
  · intro s h1 h2
    simp only [WorkflowBuilder.should_recluster]
    rw [if_neg h1, if_pos h2]
    by_cases h3 : s.clustering_attempts ≥ 3
    · rw [if_pos h3]
      constructor
      · intro hh
        exact absurd hh (by decide)
      · intro hlt
        omega
    · rw [if_neg h3]
      exact ⟨fun _ => by omega, fun _ => rfl⟩
  · intro s h1 h2
    simp only [WorkflowBuilder.should_recluster]
    rw [if_neg h1, if_neg h2]
    by_cases hp : ((WorkflowBuilder.poor_clusters (s.ad_groups.getD [])).length : ℚ)
        > ((s.ad_groups.getD []).length : ℚ) * 0.3
    · rw [if_pos hp]
      by_cases h3 : s.clustering_attempts ≥ 2
      · rw [if_pos h3]
        constructor
        · intro hh
          exact absurd hh (by decide)
        · intro hh
          omega
      · rw [if_neg h3]
        exact ⟨fun _ => ⟨hp, by omega⟩, fun _ => rfl⟩
    · rw [if_neg hp]
      constructor
      · intro hh
        exact absurd hh (by decide)
      · intro hh
        exact absurd hh.1 hp
  · intro s
    simp only [WorkflowBuilder.should_recluster]
    split_ifs <;> simp
  · simp only [WorkflowBuilder.should_recluster, WorkflowBuilder.poor_clusters,
      gateScenarioState, mkTestGroup]
    norm_num
  · simp only [WorkflowBuilder.should_recluster, WorkflowBuilder.poor_clusters,
      gateScenarioState, mkTestGroup]
    norm_num
    intro h
    exact (List.cons_ne_nil _ _ h).elim

/-- Witness for C2: with embeddings present, no ad groups and zero
attempts, the gate orders a recluster. -/
theorem quality_gate_decision_witness :
    WorkflowBuilder.should_recluster wGateZeroState = "recluster" :=
  (quality_gate_decision.2.1 wGateZeroState (by decide) (by decide)).mpr (by decide)

/-- C7: for every RawKeyword with non-negative searches, competition and
bid the opportunity score lies in [0, 1]; and a keyword whose
(lower-cased) term contains "buy" scores at least as high as one whose
term matches no commercial-intent token, all numeric fields equal. -/
theorem score_in_range_and_buy_boost :
    (∀ kw : RawKeyword, 0 ≤ kw.avg_monthly_searches → 0 ≤ kw.competition →
        0 ≤ kw.suggested_bid →
        0 ≤ KeywordProcessor.calculate_opportunity_score kw
          ∧ KeywordProcessor.calculate_opportunity_score kw ≤ 1)
      ∧ (∀ buy_kw plain_kw : RawKeyword,
          buy_kw.avg_monthly_searches = plain_kw.avg_monthly_searches →
          buy_kw.competition = plain_kw.competition →
          buy_kw.suggested_bid = plain_kw.suggested_bid →
          0 ≤ plain_kw.avg_monthly_searches →
          0 ≤ plain_kw.competition →
          0 ≤ plain_kw.suggested_bid →
          strContains (lowerStr buy_kw.keyword) "buy" = true →
          (∀ m ∈ KeywordProcessor.commercial_modifiers,
              strContains (lowerStr plain_kw.keyword) m = false) →
          KeywordProcessor.calculate_opportunity_score plain_kw
            ≤ KeywordProcessor.calculate_opportunity_score buy_kw) := by
  have hvol : ∀ n : ℤ, (0:ℚ) ≤ (if n ≤ 100 then (0.2:ℚ) else if n ≤ 1000 then 0.5
      else if n ≤ 5000 then 0.8 else 1.0)
      ∧ (if n ≤ 100 then (0.2:ℚ) else if n ≤ 1000 then 0.5
          else if n ≤ 5000 then 0.8 else 1.0) ≤ 1 := by
    intro n
    constructor <;> split_ifs <;> norm_num
  have hcs : ∀ c : ℚ, 0 ≤ c → (0:ℚ) ≤ 1 - min (c / 5) 1 ∧ 1 - min (c / 5) 1 ≤ 1 := by
    intro c hc
    constructor
    · have := min_le_right (c / 5) (1:ℚ)
      linarith
    · have : (0:ℚ) ≤ min (c / 5) 1 := le_min (by positivity) zero_le_one
      linarith
  have hbn : ∀ bd : ℚ, 0 ≤ bd → (0:ℚ) ≤ min (bd / 100) 1 ∧ min (bd / 100) 1 ≤ 1 := by
    intro bd hbd
    exact ⟨le_min (by positivity) zero_le_one, min_le_right _ _⟩
  have hbase : ∀ kw : RawKeyword, 0 ≤ kw.competition → 0 ≤ kw.suggested_bid →
      (0:ℚ) ≤ (if kw.avg_monthly_searches ≤ 100 then (0.2:ℚ)
          else if kw.avg_monthly_searches ≤ 1000 then 0.5
          else if kw.avg_monthly_searches ≤ 5000 then 0.8 else 1.0) * 0.4
        + (1 - min (kw.competition / 5) 1) * 0.3 + min (kw.suggested_bid / 100) 1 * 0.3
      ∧ (if kw.avg_monthly_searches ≤ 100 then (0.2:ℚ)
          else if kw.avg_monthly_searches ≤ 1000 then 0.5
          else if kw.avg_monthly_searches ≤ 5000 then 0.8 else 1.0) * 0.4
        + (1 - min (kw.competition / 5) 1) * 0.3 + min (kw.suggested_bid / 100) 1 * 0.3 ≤ 1 := by
    intro kw hc hb
    obtain ⟨hv0, hv1⟩ := hvol kw.avg_monthly_searches
    obtain ⟨hc0, hc1⟩ := hcs kw.competition hc
    obtain ⟨hb0, hb1⟩ := hbn kw.suggested_bid hb
    constructor <;> nlinarith
  constructor
  · intro kw hs hc hb
    obtain ⟨h0, hle1⟩ := hbase kw hc hb
    simp only [KeywordProcessor.calculate_opportunity_score]
    constructor
    · apply le_min _ zero_le_one
      by_cases hany : (KeywordProcessor.commercial_modifiers.any
          fun m => strContains (lowerStr kw.keyword) m) = true
      · rw [if_pos hany]
        linarith
      · rw [if_neg hany]
        exact h0
    · exact min_le_right _ _
  · intro bkw pkw h1 h2 h3 hs hc hb hbuy hplain
    have hanyb : (KeywordProcessor.commercial_modifiers.any
        fun m => strContains (lowerStr bkw.keyword) m) = true :=
      List.any_eq_true.mpr ⟨"buy", by decide, hbuy⟩
    have hanyp : ¬ (KeywordProcessor.commercial_modifiers.any
        fun m => strContains (lowerStr pkw.keyword) m) = true := by
      rw [List.any_eq_false.mpr]
      · exact Bool.false_ne_true
      · intro m hm
        simp [hplain m hm]
    obtain ⟨h0, _⟩ := hbase pkw hc hb
    simp only [KeywordProcessor.calculate_opportunity_score, h1, h2, h3]
    rw [if_pos hanyb, if_neg hanyp]
    apply min_le_min _ (le_refl 1)
    linarith

/-- Witness for C7: a "buy" keyword scores at least as high as an
otherwise-identical keyword without commercial tokens. -/
theorem score_in_range_and_buy_boost_witness :
    KeywordProcessor.calculate_opportunity_score wPlainKeyword
      ≤ KeywordProcessor.calculate_opportunity_score wBuyKeyword :=
  score_in_range_and_buy_boost.2 wBuyKeyword wPlainKeyword rfl rfl rfl
    (by decide) (by decide) (by decide) (by decide) (by decide)

lemma mkBid_low_le_high (kid intent : String) (cpa comp : ℚ)
    (hcpa : 0 ≤ cpa) (hcomp : 0 ≤ comp) :
    (CampaignDesignerAgent.mkBid kid intent cpa comp).bid_low
      ≤ (CampaignDesignerAgent.mkBid kid intent cpa comp).bid_high := by
  show round2 (cpa * 0.02 * (1 + comp * 0.2) * 0.8)
      ≤ round2 (cpa * 0.02 * (1 + comp * 0.2) * 1.2)
  apply round2_mono
  have hz : 0 ≤ cpa * 0.02 * (1 + comp * 0.2) := by
    apply mul_nonneg (mul_nonneg hcpa (by norm_num))
    nlinarith
  nlinarith

/-- C8: every Bid emitted by the search-campaign builder — computed from
a non-negative target CPA, the 0.02 assumed conversion rate and the
keyword's non-negative competition — satisfies bid_low ≤ bid_high. -/
theorem bid_low_le_bid_high (s : GlobalState) (budget : ℚ)
    (hcpa : 0 ≤ s.initial_request.target_cpa.getD 50)
    (hcomp : ∀ kw ∈ s.raw_keywords.getD [], 0 ≤ kw.competition) :
    ∀ ag ∈ (CampaignDesignerAgent.create_search_campaign s budget).ad_groups,
      ∀ b ∈ ag.keywords, b.bid_low ≤ b.bid_high := by
  intro ag hag b hb
  have hag' : ag ∈ (s.ad_groups.getD []).map (fun group =>
      ({ ad_group_id := group.id
         ad_group_name := group.name
         keywords := group.keywords.filterMap (fun keyword_id =>
           match CampaignDesignerAgent.dictGet EnrichedKeyword.keyword_id
                   (s.enriched_keywords.getD []) keyword_id,
                 CampaignDesignerAgent.dictGet RawKeyword.keyword
                   (s.raw_keywords.getD []) keyword_id with
           | some enriched, some raw =>
             some (CampaignDesignerAgent.mkBid keyword_id enriched.intent
               (s.initial_request.target_cpa.getD 50) raw.competition)
           | _, _ => none)
         target_cpa := some (s.initial_request.target_cpa.getD 50) } : AdGroupBids)) := hag
  obtain ⟨group, _, rfl⟩ := List.mem_map.mp hag'
  obtain ⟨kid, _, hsome⟩ := List.mem_filterMap.mp hb
  cases he : CampaignDesignerAgent.dictGet EnrichedKeyword.keyword_id
      (s.enriched_keywords.getD []) kid with
  | none => rw [he] at hsome; cases hsome
  | some enriched =>
    cases hr : CampaignDesignerAgent.dictGet RawKeyword.keyword
        (s.raw_keywords.getD []) kid with
    | none => rw [he, hr] at hsome; cases hsome
    | some raw =>
      rw [he, hr] at hsome
      have hbid : CampaignDesignerAgent.mkBid kid enriched.intent
          (s.initial_request.target_cpa.getD 50) raw.competition = b :=
        Option.some.inj hsome
      have hraw : raw ∈ s.raw_keywords.getD [] :=
        List.mem_reverse.mp (List.mem_of_find?_eq_some hr)
      rw [← hbid]
      exact mkBid_low_le_high kid enriched.intent _ raw.competition hcpa (hcomp raw hraw)

/-- Witness for C8: in a concrete state (target CPA 40, one keyword with
competition 2) every emitted bid satisfies bid_low ≤ bid_high. -/
theorem bid_low_le_bid_high_witness :
    (((CampaignDesignerAgent.create_search_campaign wBidState 500).ad_groups.flatMap
        (fun ag => ag.keywords)).all (fun b => decide (b.bid_low ≤ b.bid_high))) = true := by
  have h := bid_low_le_bid_high wBidState 500 (by decide) (by decide)
  rw [List.all_eq_true]
  intro b hb
  obtain ⟨ag, hag, hbb⟩ := List.mem_flatMap.mp hb
  exact decide_eq_true (h ag hag b hbb)

/-- C1 counterexample: a run of the Cluster Builder on 3 well-formed
embeddings in which HDBSCAN raises takes the fault-fallback branch,
whose returned update carries no `clustering_attempts` key — the counter
stays at its old value instead of being incremented by one. -/
theorem cluster_attempts_counterexample :
    (applyUpdate wClusterState
        (ClusteringAgent.call wClusterState ClusteringAgent.HdbscanResult.fault
          wNameFn)).clustering_attempts
        ≠ wClusterState.clustering_attempts + 1
      ∧ (applyUpdate wClusterState
          (ClusteringAgent.call wClusterState ClusteringAgent.HdbscanResult.fault
            wNameFn)).clustering_attempts
        = wClusterState.clustering_attempts := by
  decide

/-- C1 (amended): every run of the Cluster Builder except the
HDBSCAN-fault fallback branch increments the clustering-attempt counter
by exactly one; and the Quality Gate forces `continue_processing` once
attempts reach 3 on the zero-groups branch and once attempts reach 2
whenever ad groups exist, so on non-faulting runs at most 3 attempts
occur via the zero-groups branch and at most 2 re-clustering attempts
via the poor-quality branch. -/
theorem cluster_attempts_amended :
    (∀ (s : GlobalState) (r : ClusteringAgent.HdbscanResult)
        (nameFn : List String → String),
        r ≠ ClusteringAgent.HdbscanResult.fault →
        (ClusteringAgent.call s r nameFn).clustering_attempts
          = some (s.clustering_attempts + 1))
      ∧ (∀ s : GlobalState, s.embeddings ≠ [] → s.ad_groups.getD [] = [] →
          3 ≤ s.clustering_attempts →
          WorkflowBuilder.should_recluster s = "continue_processing")
      ∧ (∀ s : GlobalState, s.ad_groups.getD [] ≠ [] →
          2 ≤ s.clustering_attempts →
          WorkflowBuilder.should_recluster s = "continue_processing") := by
  refine ⟨?_, ?_, ?_⟩
  · intro s r nameFn hr
    cases r with
    | fault => exact absurd rfl hr
    | labels ls probs =>
      simp only [ClusteringAgent.call]
      split_ifs <;> rfl
  · intro s h1 h2 h3
    simp only [WorkflowBuilder.should_recluster]
    rw [if_neg h1, if_pos h2, if_pos h3]
  · intro s h1 h2
    simp only [WorkflowBuilder.should_recluster]
    by_cases hemb : s.embeddings = []
    · rw [if_pos hemb]
    · rw [if_neg hemb, if_neg h1]
      by_cases hp : ((WorkflowBuilder.poor_clusters (s.ad_groups.getD [])).length : ℚ)
          > ((s.ad_groups.getD []).length : ℚ) * 0.3
      · rw [if_pos hp, if_pos h2]
      · rw [if_neg hp]

/-- Witness for C1 at a concrete non-faulting clustering run: the
counter in the returned update is the old value plus one. -/
theorem cluster_attempts_amended_witness :
    (ClusteringAgent.call wClusterState
        (ClusteringAgent.HdbscanResult.labels [0, 0, -1] none) wNameFn).clustering_attempts
      = some (wClusterState.clustering_attempts + 1) :=
  cluster_attempts_amended.1 wClusterState
    (ClusteringAgent.HdbscanResult.labels [0, 0, -1] none) wNameFn (by decide)

/-- C3: on every branch of the Cluster Builder's policy ladder — empty
input, fewer than 3 embeddings, density clustering with noise points,
clustering-fault fallback, zero-groups catch-all — the produced ad
groups cover every input keyword id exactly once: the concatenation of
all member lists is a permutation of the (duplicate-free) input keys,
hence itself duplicate-free. Hypotheses reflect the input contract
(fixed-dimension vectors) and HDBSCAN's shape guarantee (one label, and
one probability when available, per sample). -/
theorem cluster_partition (s : GlobalState) (r : ClusteringAgent.HdbscanResult)
    (nameFn : List String → String)
    (hnd : (s.embeddings.map Prod.fst).Nodup)
    (hdim : ClusteringAgent.sameLengths (s.embeddings.map Prod.snd) = true)
    (hlab : ∀ ls probs, r = ClusteringAgent.HdbscanResult.labels ls probs →
        ls.length = s.embeddings.length
          ∧ ∀ p, probs = some p → p.length = ls.length) :
    List.Perm
      (((ClusteringAgent.call s r nameFn).ad_groups.getD []).flatMap AdGroup.keywords)
      (s.embeddings.map Prod.fst)
      ∧ (((ClusteringAgent.call s r nameFn).ad_groups.getD []).flatMap
          AdGroup.keywords).Nodup := by
  suffices hperm : List.Perm
      (((ClusteringAgent.call s r nameFn).ad_groups.getD []).flatMap AdGroup.keywords)
      (s.embeddings.map Prod.fst) from ⟨hperm, hnd.perm hperm.symm⟩
  by_cases h1 : s.embeddings = []
  · simp [ClusteringAgent.call, h1]
  by_cases h2 : s.embeddings.length < 3
  · have hgroups : (ClusteringAgent.call s r nameFn).ad_groups
        = some (s.embeddings.enum.map (fun q =>
            ({ id := "group_" ++ toString q.1
               name := "Keywords Group " ++ toString (q.1 + 1)
               keywords := [q.2.1], centroid := q.2.2, score := 0.8 } : AdGroup))) := by
      simp only [ClusteringAgent.call]
      rw [if_neg h1, if_pos h2]
    rw [hgroups, Option.getD_some, List.flatMap_map]
    show List.Perm (s.embeddings.enum.flatMap fun q : ℕ × (String × Vec) => [q.2.1]) _
    rw [flatMap_singleton_eq_map (fun q : ℕ × (String × Vec) => q.2.1)]
    show List.Perm (s.embeddings.enum.map (Prod.fst ∘ Prod.snd)) _
    rw [← List.map_map, List.enum_map_snd]
  have hdim' : ¬¬ ClusteringAgent.sameLengths (s.embeddings.map Prod.snd) = true :=
    not_not_intro hdim
  cases r with
  | fault =>
    have hgroups : (ClusteringAgent.call s ClusteringAgent.HdbscanResult.fault
        nameFn).ad_groups
        = some (s.embeddings.enum.map (fun q =>
            ({ id := "fallback_group_" ++ toString q.1
               name := "Keyword Group " ++ toString (q.1 + 1)
               keywords := [q.2.1], centroid := q.2.2, score := 0.7 } : AdGroup))) := by
      simp only [ClusteringAgent.call]
      rw [if_neg h1, if_neg h2, if_neg hdim']
    rw [hgroups, Option.getD_some, List.flatMap_map]
    show List.Perm (s.embeddings.enum.flatMap fun q : ℕ × (String × Vec) => [q.2.1]) _
    rw [flatMap_singleton_eq_map (fun q : ℕ × (String × Vec) => q.2.1)]
    show List.Perm (s.embeddings.enum.map (Prod.fst ∘ Prod.snd)) _
    rw [← List.map_map, List.enum_map_snd]
  | labels ls probs =>
    obtain ⟨hlen, hprl⟩ := hlab ls probs rfl
    have hgroups : (ClusteringAgent.call s
        (ClusteringAgent.HdbscanResult.labels ls probs) nameFn).ad_groups
        = some (if (ClusteringAgent.noiseGroups (ClusteringAgent.mkPts s.embeddings ls probs)
              ++ ClusteringAgent.clusterGroups (ClusteringAgent.mkPts s.embeddings ls probs)
                  ls nameFn) = []
              ∧ s.embeddings.map Prod.fst ≠ []
            then [{ id := "default_group", name := "All Keywords"
                    keywords := s.embeddings.map Prod.fst
                    centroid := ClusteringAgent.centroidOf (s.embeddings.map Prod.snd)
                    score := 0.7 }]
            else ClusteringAgent.noiseGroups (ClusteringAgent.mkPts s.embeddings ls probs)
              ++ ClusteringAgent.clusterGroups (ClusteringAgent.mkPts s.embeddings ls probs)
                  ls nameFn) := by
      simp only [ClusteringAgent.call]
      rw [if_neg h1, if_neg h2, if_neg hdim']
    rw [hgroups, Option.getD_some]
    have hflat : (ClusteringAgent.noiseGroups (ClusteringAgent.mkPts s.embeddings ls probs)
        ++ ClusteringAgent.clusterGroups (ClusteringAgent.mkPts s.embeddings ls probs)
            ls nameFn).flatMap AdGroup.keywords
        = (((-1:ℤ) :: (ls.dedup.filter fun c => c != -1)).flatMap
            fun c => ((ClusteringAgent.mkPts s.embeddings ls probs).filter
              fun p => p.label == c).map ClusteringAgent.Pt.kw) := by
      rw [List.flatMap_append, noiseGroups_flatMap, clusterGroups_flatMap,
        List.flatMap_cons]
    have hmapl := mkPts_map_label s.embeddings ls probs hlen hprl
    have hmapk := mkPts_map_kw s.embeddings ls probs hlen hprl
    have hvs_nodup : ((-1:ℤ) :: (ls.dedup.filter fun c => c != -1)).Nodup := by
      rw [List.nodup_cons]
      refine ⟨fun hmem => ?_, (List.nodup_dedup ls).filter _⟩
      have h := (List.mem_filter.mp hmem).2
      simp at h
    have hcov : ∀ p ∈ ClusteringAgent.mkPts s.embeddings ls probs,
        p.label ∈ ((-1:ℤ) :: (ls.dedup.filter fun c => c != -1)) := by
      intro p hp
      have hl : p.label ∈ ls := by
        rw [← hmapl]
        exact List.mem_map_of_mem _ hp
      by_cases hpl : p.label = -1
      · rw [hpl]
        exact List.mem_cons_self _ _
      · exact List.mem_cons_of_mem _
          (List.mem_filter.mpr ⟨List.mem_dedup.mpr hl, by simpa using hpl⟩)
    have hperm0 := perm_flatMap_filter_eq ClusteringAgent.Pt.label
      ((-1:ℤ) :: (ls.dedup.filter fun c => c != -1))
      (ClusteringAgent.mkPts s.embeddings ls probs) hvs_nodup hcov
    have hperm1 : List.Perm
        ((((-1:ℤ) :: (ls.dedup.filter fun c => c != -1)).flatMap
            fun c => ((ClusteringAgent.mkPts s.embeddings ls probs).filter
              fun p => p.label == c).map ClusteringAgent.Pt.kw))
        (s.embeddings.map Prod.fst) := by
      have h := hperm0.map ClusteringAgent.Pt.kw
      rw [List.map_flatMap, hmapk] at h
      exact h
    by_cases hg : (ClusteringAgent.noiseGroups (ClusteringAgent.mkPts s.embeddings ls probs)
        ++ ClusteringAgent.clusterGroups (ClusteringAgent.mkPts s.embeddings ls probs)
            ls nameFn) = []
        ∧ s.embeddings.map Prod.fst ≠ []
    · rw [if_pos hg]
      simp only [List.flatMap_cons, List.flatMap_nil, List.append_nil]
      exact List.Perm.refl _
    · rw [if_neg hg, hflat]
      exact hperm1

/-- Witness for C3 at a concrete 3-embedding state where HDBSCAN yields
one 2-member cluster and one noise point. -/
theorem cluster_partition_witness :
    List.Perm
      (((ClusteringAgent.call wClusterState
          (ClusteringAgent.HdbscanResult.labels [0, 0, -1] none)
          wNameFn).ad_groups.getD []).flatMap AdGroup.keywords)
      (wClusterState.embeddings.map Prod.fst)
      ∧ (((ClusteringAgent.call wClusterState
          (ClusteringAgent.HdbscanResult.labels [0, 0, -1] none)
          wNameFn).ad_groups.getD []).flatMap AdGroup.keywords).Nodup :=
  cluster_partition wClusterState
    (ClusteringAgent.HdbscanResult.labels [0, 0, -1] none) wNameFn
    (by decide) (by decide)
    (fun ls probs h => by
      cases h
      exact ⟨by decide, fun p hp => Option.noConfusion hp⟩)

end SEM
